import Mathlib

/-!
# Verification of the graphite reader/merge subsystem

Shallow embedding of `webapp/graphite/readers.py` (Python 2 semantics):

* integers are `Int`; Python `//`-style division of ints (`/` in Python 2)
  is `Int.fdiv` (floor division) and `%` is `Int.fmod`;
* Python sequence indexing `l[i]` accepts negative indices counting from the
  end and raises `IndexError` when the resolved index is out of bounds;
  raising is modelled with `Except Unit`;
* a time-series result is `(time_info, values)` with
  `time_info = (start, end, step)` and `values` a list of `Option α`
  (`none` models Python's `None`, the "absent" marker).
-/

deriving instance DecidableEq for Except

namespace Graphite

/-- A time-series result `((start, end, step), values)` as produced by every
reader's `fetch`.  `stop` stands for Python's `end` (a Lean keyword). -/
structure TSR (α : Type) where
  start : Int
  stop : Int
  step : Int
  values : List (Option α)
  deriving Repr, DecidableEq

/-- Python list read `l[i]`: a negative index counts from the end; a resolved
index out of bounds raises `IndexError` (`.error ()`). -/
def pyGet {β : Type} (l : List β) (i : Int) : Except Unit β :=
  let j : Int := if i < 0 then (l.length : Int) + i else i
  if 0 ≤ j then
    match l.get? j.toNat with
    | some v => .ok v
    | none => .error ()
  else .error ()

/-- Python list write `l[i] = v`: negative indices count from the end;
out-of-bounds raises `IndexError` (`none`). -/
def pySet {β : Type} (l : List β) (i : Int) (v : β) : Option (List β) :=
  let j : Int := if i < 0 then (l.length : Int) + i else i
  if 0 ≤ j ∧ j < (l.length : Int) then some (l.set j.toNat v) else none

/-- One slot lookup of `MultiReader.merge`: the index computation
`i = (t - start) / step` (floor division; Python raises `ZeroDivisionError`
when `step = 0`), then `values[i]` guarded only by `len(values) > i`
(so a negative `i` passes the guard and indexes from the end). -/
def lookupVal {α : Type} (start step : Int) (values : List (Option α))
    (t : Int) : Except Unit (Option α) :=
  if step = 0 then .error ()
  else
    let i := (t - start).fdiv step
    if (values.length : Int) > i then pyGet values i else .ok none

/-- The body of one iteration of `MultiReader.merge`'s while loop: try the
finer (primary) series first; on `None` fall back to the coarser series. -/
def mergeValueAt {α : Type} (r1 r2 : TSR α) (t : Int) :
    Except Unit (Option α) := do
  let v1 ← lookupVal r1.start r1.step r1.values t
  match v1 with
  | some v => .ok (some v)
  | none => lookupVal r2.start r2.step r2.values t

/-- The while loop `t = start; while t < end: ... t += step` of
`MultiReader.merge`, with explicit fuel.  Fuel `(stop - start).toNat`
is enough whenever `step ≥ 1`; running out of fuel (only possible when
`step ≤ 0`, where the Python loop does not terminate) is modelled as
`.error ()`. -/
def mergeLoop {α : Type} (r1 r2 : TSR α) (stop step : Int) :
    Nat → Int → Except Unit (List (Option α))
  | fuel, t =>
    if t < stop then
      match fuel with
      | 0 => .error ()
      | fuel' + 1 => do
        let v ← mergeValueAt r1 r2 t
        let rest ← mergeLoop r1 r2 stop step fuel' (t + step)
        .ok (v :: rest)
    else .ok []

/-- `MultiReader.merge` after the swap has ensured `results1` is the
finer-or-equal operand: output step is the primary's, the window is
`[min start, max end)`, and values come from the while loop. -/
def mergeAligned {α : Type} (results1 results2 : TSR α) :
    Except Unit (TSR α) :=
  let step := results1.step
  let start := min results1.start results2.start
  let stop := max results1.stop results2.stop
  do
    let values ← mergeLoop results1 results2 stop step
      (stop - start).toNat start
    .ok ⟨start, stop, step, values⟩

/-- `MultiReader.merge`: swap the operands if the first has the coarser
(larger) step, then merge with the finer series as primary. -/
def merge {α : Type} (results1 results2 : TSR α) : Except Unit (TSR α) :=
  if results1.step > results2.step then mergeAligned results2 results1
  else mergeAligned results1 results2

/-- The reduction step of `MultiReader.fetch`: `reduce(self.merge, results)`
over the list of child results.  Python's `reduce` of an empty sequence
raises `TypeError` (`.error ()`); of `x :: xs` it folds `merge` from `x`
over `xs`, propagating any exception `merge` raises. -/
def fetchReduce {α : Type} (results : List (TSR α)) : Except Unit (TSR α) :=
  match results with
  | [] => .error ()
  | r :: rs => rs.foldlM merge r

/-- The on-disk data returned by `self.ceres_node.read(startTime, endTime)`
inside `CeresReader.fetch`: a window, a native step, and the stored values. -/
structure CeresData (α : Type) where
  startTime : Int
  endTime : Int
  timeStep : Int
  values : List (Option α)
  deriving Repr, DecidableEq

/-- One iteration of `CeresReader.fetch`'s cache-patching loop for a cached
datapoint `(timestamp, value)`:

* `interval = timestamp - (timestamp % data.timeStep)` is computed outside
  the `try`, so `timeStep = 0` raises `ZeroDivisionError` out of `fetch`;
* inside the `try`, `i = int(interval - data.startTime) / data.timeStep`
  (floor division) and `values[i] = value`; a negative `i` writes from the
  end of the list; only an out-of-bounds `IndexError` is caught by the
  bare `except: pass`, which leaves `values` unchanged. -/
def applyCachedPoint {α : Type} (dstart dstep : Int)
    (vs : List (Option α)) (p : Int × α) : Except Unit (List (Option α)) :=
  if dstep = 0 then .error ()
  else
    let interval := p.1 - p.1.fmod dstep
    let i := (interval - dstart).fdiv dstep
    match pySet vs i (some p.2) with
    | some vs2 => .ok vs2
    | none => .ok vs

/-- The cache-overlay path of `CeresReader.fetch`: fold the patching loop
over the cached datapoints and return `(time_info, values)`. -/
def cachePatch {α : Type} (d : CeresData α) (cached : List (Int × α)) :
    Except Unit ((Int × Int × Int) × List (Option α)) := do
  let values ← cached.foldlM (applyCachedPoint d.startTime d.timeStep) d.values
  .ok ((d.startTime, d.endTime, d.timeStep), values)

/-- The `try/except` around `CarbonLink.query` in `CeresReader.fetch`: a
raising query is caught, logged, and replaced by the empty sequence of
cached datapoints. -/
def defaultEmpty {α : Type} (c : Except Unit (List (Int × α))) :
    List (Int × α) :=
  match c with
  | .ok ps => ps
  | .error _ => []

/-- `CeresReader.fetch`.  The on-disk read result is the parameter `d`; the
`CarbonLink.query(self.real_metric_path)` collaborator call is the parameter
`cacheQuery` (`.error ()` when the query raises).  Only when
`data.endTime < endTime` is the cache consulted: a raising query is caught
and treated as `[]` (`defaultEmpty`), and each cached datapoint is patched
in; `time_info = (data.startTime, data.endTime, data.timeStep)` is
returned either way. -/
def ceresFetch {α : Type} (_startTime endTime : Int) (d : CeresData α)
    (cacheQuery : Except Unit (List (Int × α))) :
    Except Unit ((Int × Int × Int) × List (Option α)) :=
  if d.endTime < endTime then
    cachePatch d (defaultEmpty cacheQuery)
  else .ok ((d.startTime, d.endTime, d.timeStep), d.values)

/-- Python's `list.index(x)`: the first position of `x`, raising
`ValueError` (`.error ()`) when `x` does not occur. -/
def pyIndex (l : List String) (x : String) : Except Unit Nat :=
  match l.findIdx? (fun y => y = x) with
  | some i => .ok i
  | none => .error ()

/-- Python's `list.pop()`: drop (and return) the last element, raising
`IndexError` on an empty list.  Only the remaining list matters here. -/
def pyPop {β : Type} (l : List β) : Except Unit (List β) :=
  if l.isEmpty then .error () else .ok l.dropLast

/-- `RRDReader.fetch` after the native `rrdtool.fetch` call, whose result
`(timeInfo, columns, rows)` is passed in (`timeInfo` stays opaque, type
`τ`).  The column of the bound datasource is located with `.index`, the
last row is discarded by `rows.pop()`, and the values are the datasource's
column of the remaining rows (Python builds them as a generator; it is
materialised here, with the in-bounds column access `row[colIndex]`
written as `List.getD`). -/
def rrdFetch {τ α : Type} (datasource_name : String) (timeInfo : τ)
    (columns : List String) (rows : List (List (Option α))) :
    Except Unit (τ × List (Option α)) := do
  let colIndex ← pyIndex columns datasource_name
  let rows2 ← pyPop rows
  .ok (timeInfo, rows2.map (fun row => row.getD colIndex none))

/-- Python dict store `d[k] = v`: replace the value at an existing key,
otherwise append the new binding. -/
def dictInsert (d : List (String × Int)) (k : String) (v : Int) :
    List (String × Int) :=
  if d.any (fun e => e.1 = k) then
    d.map (fun e => if e.1 = k then (k, v) else e)
  else d ++ [(k, v)]

/-- Python dict read `d[k]`: the value bound to `k`, raising `KeyError`
(`.error ()`) when absent. -/
def dictGet (d : List (String × Int)) (k : String) : Except Unit Int :=
  match d.find? (fun e => e.1 = k) with
  | some e => .ok e.2
  | none => .error ()

/-- Python's `str.startswith(p)`, written on the underlying character
lists (so that it evaluates by plain structural reduction). -/
def pyStartsWith (s p : String) : Bool :=
  s.data.take p.data.length == p.data

/-- Python's `str.endswith(p)`, written on the underlying character
lists. -/
def pyEndsWith (s p : String) : Bool :=
  s.data.drop (s.data.length - p.data.length) == p.data
    && p.data.length ≤ s.data.length

/-- Python's slice `s[a:-b]` (characters from position `a` up to `b` from
the end), written on the underlying character lists. -/
def pySlice (s : String) (a b : Nat) : String :=
  ⟨(s.data.take (s.data.length - b)).drop a⟩

/-- The single pass of `RRDReader.get_retention` over the keys of the
native `info` dict, building the `rows` and `pdp_per_row` dicts: a key
`rra[ID].rows` binds `rows[ID]`, a key `rra[ID].pdp_per_row` binds
`pdp_per_row[ID]` (`id = key[4:-6]` resp. `key[4:-13]`). -/
def retentionDicts (info : List (String × Int)) :
    List (String × Int) × List (String × Int) :=
  info.foldl
    (fun acc kv =>
      if pyStartsWith kv.1 "rra[" && pyEndsWith kv.1 "].rows" then
        (dictInsert acc.1 (pySlice kv.1 4 6) kv.2, acc.2)
      else if pyStartsWith kv.1 "rra[" && pyEndsWith kv.1 "].pdp_per_row" then
        (acc.1, dictInsert acc.2 (pySlice kv.1 4 13) kv.2)
      else acc)
    ([], [])

/-- `RRDReader.get_retention` on the native `info` dict (modelled as an
association list of string keys to integers):
`info['step'] * max(rows[id] * pdp_per_row[id] for id in rows)`.
`info['step']` or a missing `pdp_per_row[id]` raises `KeyError`; `max` of
an empty sequence raises `ValueError` (all `.error ()`). -/
def get_retention (info : List (String × Int)) : Except Unit Int := do
  let dicts := retentionDicts info
  let step ← dictGet info "step"
  let prods ← dicts.1.mapM (fun e => do
    let p ← dictGet dicts.2 e.1
    .ok (e.2 * p))
  match prods with
  | [] => .error ()
  | x :: xs => .ok (step * xs.foldl max x)

/-! ## Helper lemmas -/

/-- A successful Python list write preserves the list's length. -/
theorem pySet_length {β : Type} (l : List β) (i : Int) (v : β)
    (l2 : List β) (h : pySet l i v = some l2) : l2.length = l.length := by
  simp only [pySet] at h
  by_cases hc : 0 ≤ (if i < 0 then (l.length : Int) + i else i) ∧
      (if i < 0 then (l.length : Int) + i else i) < (l.length : Int)
  · rw [if_pos hc] at h
    cases Option.some.inj h
    exact List.length_set l _ v
  · rw [if_neg hc] at h
    exact Option.noConfusion h

/-- With a nonzero step, one cache-patching iteration never raises and
preserves the length of the value list. -/
theorem applyCachedPoint_ok {α : Type} (dstart dstep : Int)
    (h : dstep ≠ 0) (vs : List (Option α)) (p : Int × α) :
    ∃ vs2, applyCachedPoint dstart dstep vs p = .ok vs2 ∧
      vs2.length = vs.length := by
  rw [applyCachedPoint, if_neg h]
  rcases hps : pySet vs ((p.1 - p.1.fmod dstep - dstart).fdiv dstep)
      (some p.2) with _ | vs2
  · exact ⟨vs, by simp [hps], rfl⟩
  · exact ⟨vs2, by simp [hps], pySet_length _ _ _ _ hps⟩

/-- With a nonzero step, the whole cache-patching fold never raises and
preserves the length of the value list. -/
theorem foldlM_patch_ok {α : Type} (dstart dstep : Int) (h : dstep ≠ 0)
    (ps : List (Int × α)) (vs : List (Option α)) :
    ∃ vs2, ps.foldlM (applyCachedPoint dstart dstep) vs = .ok vs2 ∧
      vs2.length = vs.length := by
  induction ps generalizing vs with
  | nil => exact ⟨vs, rfl, rfl⟩
  | cons p ps ih =>
    obtain ⟨vs1, h1, hl1⟩ := applyCachedPoint_ok dstart dstep h vs p
    obtain ⟨vs2, h2, hl2⟩ := ih vs1
    exact ⟨vs2, by rw [List.foldlM_cons, h1]; exact h2, hl2.trans hl1⟩

/-! ## Claim theorems -/

/-- C10: for a `MultiReader` over exactly one child, the pairwise reduction
of `fetch` returns that child's result unchanged, without invoking
`merge`. -/
theorem fetchReduce_singleton {α : Type} (r : TSR α) :
    fetchReduce [r] = .ok r := rfl

/-- C1: the fallback semantics fails on the code.  Merging the finer series
`(0, 20, 10)` with values `[None, 5]` and the coarser series `(20, 60, 20)`
with values `[7, 8]`: at output timestamp `t = 0` the finer series is absent
and `t` lies outside the coarser window `[20, 60)`, so the output should be
absent; instead the code's unguarded negative index `(0 - 20) // 20 = -1`
makes `values2[-1]` return the coarser series' last value `8`, which is
emitted. -/
theorem merge_negative_index_wraparound :
    merge (α := Int) ⟨0, 20, 10, [none, some 5]⟩ ⟨20, 60, 20, [some 7, some 8]⟩
      = .ok ⟨0, 60, 10, [some 8, some 5, some 7, some 7, some 8, some 8]⟩ := by
  decide

/-- C2: the output-shape property fails on the code.  Merging the well-formed
series `(1000, 1010, 10)` with values `[1]` and `(0, 10, 10)` with values
`[2]` should, per the claim, return a series of length
`ceil((1010 - 0)/10) = 101`; instead at the first output timestamp `t = 0`
the primary index `(0 - 1000) // 10 = -100` passes the `len(values1) > i1`
guard and `values1[-100]` raises an uncaught `IndexError`, so `merge`
returns no result at all. -/
theorem merge_raises_on_disjoint_windows :
    merge (α := Int) ⟨1000, 1010, 10, [some 1]⟩ ⟨0, 10, 10, [some 2]⟩
      = .error () := by
  decide

/-- C3: the silent-ignore property fails on the code.  With on-disk data
`(0, 30, 10)` and values `[1, 2, 3]`, a cached datapoint at timestamp `-10`
has its bucket `-10` outside the window `[0, 30)`, so the claim requires the
returned values to be unchanged; instead the index `(-10 - 0) // 10 = -1`
is in Python's negative range, `values[-1] = 99` overwrites the last slot,
and fetch returns `[1, 2, 99]`. -/
theorem ceres_cache_underflow_overwrites_tail :
    ceresFetch (α := Int) 0 100 ⟨0, 30, 10, [some 1, some 2, some 3]⟩
        (.ok [(-10, 99)])
      = .ok ((0, 30, 10), [some 1, some 2, some 99]) := by
  decide

/-- C4: `MultiReader.merge` is commutative whenever the two operands' steps
differ (the swap normalises either order to the same finer-first pair), and
with exactly equal steps no swap happens, so the first operand is the
primary. -/
theorem merge_comm_of_ne_step {α : Type} (a b : TSR α) :
    (a.step ≠ b.step → merge a b = merge b a) ∧
    (a.step = b.step → merge a b = mergeAligned a b) := by
  constructor
  · intro h
    rcases lt_or_gt_of_ne h with hlt | hgt
    · rw [merge, merge, if_neg (not_lt.mpr hlt.le), if_pos hlt]
    · rw [merge, merge, if_pos hgt, if_neg (not_lt.mpr hgt.le)]
  · intro h
    rw [merge, if_neg (not_lt.mpr h.le)]

/-- Witness for C4 at concrete inputs: a pair with steps 10 and 20 merges
the same in either order, and an equal-step pair is merged with the first
operand as primary. -/
theorem merge_comm_of_ne_step_witness :
    (merge (α := Int) ⟨0, 10, 10, [some 1]⟩ ⟨0, 20, 20, [some 2]⟩
       = merge ⟨0, 20, 20, [some 2]⟩ ⟨0, 10, 10, [some 1]⟩) ∧
    (merge (α := Int) ⟨0, 10, 10, [some 1]⟩ ⟨0, 10, 10, [some 2]⟩
       = mergeAligned ⟨0, 10, 10, [some 1]⟩ ⟨0, 10, 10, [some 2]⟩) :=
  ⟨(merge_comm_of_ne_step ⟨0, 10, 10, [some 1]⟩ ⟨0, 20, 20, [some 2]⟩).1
      (by decide),
   (merge_comm_of_ne_step ⟨0, 10, 10, [some 1]⟩ ⟨0, 10, 10, [some 2]⟩).2
      rfl⟩

/-- C5: when the bound datasource occurs in the columns and the native query
returned at least one row, `RRDReader.fetch` drops exactly the trailing row:
the returned series is the datasource column of all rows but the last, so
its length is `N - 1` for `N` raw rows and the final row's value is never
surfaced. -/
theorem rrdFetch_drops_trailing_row {τ α : Type} (name : String) (ti : τ)
    (columns : List String) (rows : List (List (Option α))) (k : Nat)
    (hk : pyIndex columns name = .ok k) (hr : rows ≠ []) :
    rrdFetch name ti columns rows
      = .ok (ti, rows.dropLast.map (fun row => row.getD k none)) ∧
    (rows.dropLast.map (fun row => row.getD k none)).length
      = rows.length - 1 := by
  constructor
  · rw [rrdFetch, hk]
    rw [show pyPop rows = .ok rows.dropLast from by
      rw [pyPop, if_neg (by simpa [List.isEmpty_iff] using hr)]]
    rfl
  · rw [List.length_map, List.length_dropLast]

/-- Witness for C5: two raw rows over columns `["a", "b"]` with datasource
`"b"` yield exactly the first row's second entry. -/
theorem rrdFetch_drops_trailing_row_witness :
    rrdFetch (τ := Nat) (α := Int) "b" 7 ["a", "b"]
        [[some 1, some 2], [some 3, some 4]]
      = .ok (7, [[some 1, some 2], [some 3, some 4]].dropLast.map
          (fun row => row.getD 1 none)) ∧
    ([[some (1 : Int), some 2], [some 3, some 4]].dropLast.map
        (fun row => row.getD 1 none)).length
      = [[some (1 : Int), some 2], [some 3, some 4]].length - 1 :=
  rrdFetch_drops_trailing_row "b" 7 ["a", "b"]
    [[some 1, some 2], [some 3, some 4]] 1 (by decide) (by decide)

/-- C6: `RRDReader.get_retention` returns the base step times the maximum
over the archive tiers of `rows * pdp_per_row`; in particular on tiers
`(rows=100, samplesPerRow=1)` and `(rows=50, samplesPerRow=12)` with base
step 10 it returns 6000. -/
theorem get_retention_step_times_max :
    (∀ step r1 p1 r2 p2 : Int,
      get_retention [("step", step),
        ("rra[0].rows", r1), ("rra[0].pdp_per_row", p1),
        ("rra[1].rows", r2), ("rra[1].pdp_per_row", p2)]
        = .ok (step * max (r1 * p1) (r2 * p2))) ∧
    get_retention [("step", 10),
        ("rra[0].rows", 100), ("rra[0].pdp_per_row", 1),
        ("rra[1].rows", 50), ("rra[1].pdp_per_row", 12)]
      = .ok 6000 := by
  constructor
  · intro step r1 p1 r2 p2
    rfl
  · decide

/-- C7: a raising cache lookup is caught inside `CeresReader.fetch`,
treated as an empty sequence of cached datapoints, and the on-disk result
is returned unchanged — the failure is never surfaced. -/
theorem ceres_cache_failure_degrades {α : Type} (s e : Int)
    (d : CeresData α) :
    ceresFetch s e d (.error ())
      = .ok ((d.startTime, d.endTime, d.timeStep), d.values) := by
  rw [ceresFetch]
  split
  · rfl
  · rfl

/-- C8: the cache overlay runs exactly when the on-disk end time is
strictly before the requested end time: in that case `fetch` is the
patching fold over the (defaulted) cache lookup; otherwise, for every
possible cache lookup outcome, `fetch` returns the on-disk values
unchanged without consulting the cache. -/
theorem ceres_overlay_condition {α : Type} (s e : Int) (d : CeresData α)
    (c : Except Unit (List (Int × α))) :
    (d.endTime < e →
      ceresFetch s e d c = cachePatch d (defaultEmpty c)) ∧
    (e ≤ d.endTime →
      ceresFetch s e d c
        = .ok ((d.startTime, d.endTime, d.timeStep), d.values)) := by
  constructor
  · intro h
    rw [ceresFetch, if_pos h]
  · intro h
    rw [ceresFetch, if_neg (not_lt.mpr h)]

/-- Witness for C8: with the on-disk end 30 and requested end 100 the
overlay path runs; with requested end 20 the on-disk values come back
unchanged for the very same cache data. -/
theorem ceres_overlay_condition_witness :
    (ceresFetch (α := Int) 0 100 ⟨0, 30, 10, [some 1]⟩ (.ok [(35, 9)])
       = cachePatch ⟨0, 30, 10, [some 1]⟩ [(35, 9)]) ∧
    (ceresFetch (α := Int) 0 20 ⟨0, 30, 10, [some 1]⟩ (.ok [(35, 9)])
       = .ok ((0, 30, 10), [some 1])) :=
  ⟨(ceres_overlay_condition 0 100 ⟨0, 30, 10, [some 1]⟩
      (.ok [(35, 9)])).1 (by decide),
   (ceres_overlay_condition 0 20 ⟨0, 30, 10, [some 1]⟩
      (.ok [(35, 9)])).2 (by decide)⟩

/-- C9: with a positive native step, `CeresReader.fetch` always returns
`time_info` exactly equal to the on-disk `(startTime, endTime, timeStep)`
and a value list of the on-disk length: cache patching rewrites slots but
never the window, the step, or the length. -/
theorem ceres_fetch_time_info_frame {α : Type} (s e : Int)
    (d : CeresData α) (c : Except Unit (List (Int × α)))
    (h : 1 ≤ d.timeStep) :
    ∃ vs, ceresFetch s e d c
        = .ok ((d.startTime, d.endTime, d.timeStep), vs) ∧
      vs.length = d.values.length := by
  rw [ceresFetch]
  split
  · obtain ⟨vs2, h2, hl2⟩ := foldlM_patch_ok d.startTime d.timeStep
      (by omega) (defaultEmpty c) d.values
    exact ⟨vs2, by rw [cachePatch, h2]; rfl, hl2⟩
  · exact ⟨d.values, rfl, rfl⟩

/-- Witness for C9 at a concrete fetch with a patching cache entry. -/
theorem ceres_fetch_time_info_frame_witness :
    ∃ vs, ceresFetch (α := Int) 0 100 ⟨0, 30, 10, [some 1, some 2, some 3]⟩
        (.ok [(40, 9)])
      = .ok ((0, 30, 10), vs) ∧
      vs.length = [some (1 : Int), some 2, some 3].length :=
  ceres_fetch_time_info_frame 0 100 ⟨0, 30, 10, [some 1, some 2, some 3]⟩
    (.ok [(40, 9)]) (by decide)

end Graphite
